import Mathlib

/-!
Shallow embedding of the snaily-cadv4 excerpts:

* `WeaponController` (`src/packages/api/src/controllers/citizen/WeaponController.ts`):
  `getCitizenWeapons`, `registerWeapon`, `updateWeapon`, `deleteWeapon` and the
  private helper `generateOrValidateSerialNumber`.
* `NameChangeRequestController` (same file bundle): `requestNameChange`.
* `getActiveOfficer` (`src/unnamed/part_001`).

Prisma queries are modelled over explicit list-backed tables; `mode: "insensitive"`
string comparison is modelled by comparing `String.toLower` images; thrown framework
exceptions are modelled with an `ApiError` sum returned through `Except`.
-/

namespace SnailyCad

/-- The lowercase image of a string, character by character (what `String.toLower`
computes). -/
def strLower (s : String) : List Char := s.data.map Char.toLower

/-- Prisma `mode: "insensitive"` equality: case-insensitive string equality. -/
def ciEq (a b : String) : Bool := strLower a == strLower b

/-- Prisma `contains` with `mode: "insensitive"`: case-insensitive substring test. -/
def ciContains (hay pat : String) : Bool :=
  (strLower hay).tails.any fun t => (strLower pat).isPrefixOf t

deriving instance DecidableEq for Except

/-- JavaScript truthiness of an optional string: `undefined`, `null` and `""` are falsy. -/
def truthy : Option String → Option String
  | none => none
  | some s => if s = "" then none else some s

/-- Framework exceptions thrown by the controllers (`@tsed/exceptions` plus the
custom `ExtendedBadRequest`, whose payload maps field names to error values). -/
inductive ApiError where
  | notFound (msg : String)
  | badRequest (msg : String)
  | forbidden (msg : String)
  | unauthorized (msg : String)
  | extendedBadRequest (fields : List (String × String))
  deriving Repr, DecidableEq

/-- A `User` record (the fields the excerpts consult). -/
structure User where
  id : String
  rank : String
  deriving Repr, DecidableEq

/-- A `Citizen` record; `userId` is nullable in the schema. -/
structure Citizen where
  id : String
  userId : Option String
  name : String
  surname : String
  deriving Repr, DecidableEq

/-- A `Weapon` record. `createdAt` is a timestamp used by `orderBy: { createdAt: "desc" }`. -/
structure Weapon where
  id : String
  citizenId : String
  userId : Option String
  serialNumber : String
  modelId : String
  registrationStatusId : String
  createdAt : Nat
  deriving Repr, DecidableEq

/-- A `Value` record (`value` is the display string used by insensitive matching). -/
structure Value where
  id : String
  value : String
  isDefault : Bool
  type : String
  deriving Repr, DecidableEq

/-- A `WeaponValue` record; `valueId` is the relation to its `Value`. -/
structure WeaponValue where
  id : String
  valueId : String
  deriving Repr, DecidableEq

/-- A `NameChangeRequest` record. -/
structure NameChangeRequest where
  id : String
  citizenId : String
  userId : String
  newName : String
  newSurname : String
  status : String
  deriving Repr, DecidableEq

/-- The database state the weapon and name-change controllers read and write.
`nextId` feeds fresh record ids and `now` feeds `createdAt` timestamps. -/
structure Db where
  citizens : List Citizen
  weapons : List Weapon
  weaponValues : List WeaponValue
  values : List Value
  nameChangeRequests : List NameChangeRequest
  nextId : Nat
  now : Nat
  deriving Repr, DecidableEq

/-- A fresh record id generated by the database on `create`. -/
def freshId (db : Db) : String := "id" ++ toString db.nextId

/-- Consume one fresh id. -/
def bump (db : Db) : Db := { db with nextId := db.nextId + 1 }

/-- `MAX_ITEMS_PER_TABLE_PAGE` of `WeaponController`. -/
def MAX_ITEMS_PER_TABLE_PAGE : Nat := 12

/-- `SERIAL_NUMBER_LENGTH` of `WeaponController`. -/
def SERIAL_NUMBER_LENGTH : Nat := 10

/-- Modelled from the spec: `canManageInvariant` (lib/auth/getSessionUser, not in the
excerpt) is the permission gate that throws the supplied error unless the record has
an owner and that owner is the requesting user (owner-rank users are exempt).
Returns `true` when the caller may proceed. -/
def canManageInvariant (ownerId : Option String) (user : User) : Bool :=
  match ownerId with
  | none => false
  | some uid => uid == user.id || user.rank == "OWNER"

/-- The `prisma.weapon.findFirst` of `generateOrValidateSerialNumber`: a weapon whose
serial number case-insensitively equals `serial`, excluding (via `NOT`) the weapon
with id `excl` when one is supplied. -/
def findCollision (weapons : List Weapon) (serial : String) (excl : Option String) :
    Option Weapon :=
  weapons.find? fun w =>
    ciEq w.serialNumber serial &&
      (match excl with
       | some wid => w.id != wid
       | none => true)

/-- `generateOrValidateSerialNumber(_serialNumber, weapon)`. The stream `gen` models
successive return values of `generateString(SERIAL_NUMBER_LENGTH)` (`i` indexes the
next unused random string); `fuel` bounds the recursion, `none` meaning the source's
unbounded recursion did not finish within `fuel` steps. -/
def generateOrValidateSerialNumber (weapons : List Weapon) (gen : Nat → String) :
    Nat → Nat → Option String → Option String → Option (Except ApiError String)
  | 0, _, _, _ => none
  | fuel + 1, i, _serialNumber, weaponId =>
    let serialNumber := _serialNumber.getD (gen i)
    match findCollision weapons serialNumber weaponId with
    | none => some (.ok serialNumber)
    | some _ =>
      match _serialNumber with
      | some _ => some (.error (.extendedBadRequest [("serialNumber", "serialNumberInUse")]))
      | none => generateOrValidateSerialNumber weapons gen fuel (i + 1) _serialNumber weaponId

/-- The validated `WEAPON_SCHEMA` body used by `registerWeapon` and `updateWeapon`. -/
structure WeaponData where
  citizenId : String
  model : String
  registrationStatus : String
  serialNumber : Option String
  deriving Repr, DecidableEq

/-- The `registerWeapon` branch on `CUSTOM_TEXTFIELD_VALUES`: when enabled, a new
`weaponValue` (with nested created `value`) is created and its id used as `modelId`;
otherwise `data.model` is used as the id directly. Returns the resolved `modelId`
and the database after the branch. -/
def resolveModelIdRegister (isCustomEnabled : Bool) (model : String) (db : Db) :
    String × Db :=
  if isCustomEnabled then
    let valueId := freshId db
    let db := { bump db with
      values := { id := valueId, value := model, isDefault := false, type := "WEAPON" }
        :: db.values }
    let wvId := freshId db
    let db := { bump db with
      weaponValues := ({ id := wvId, valueId := valueId } : WeaponValue) :: db.weaponValues }
    (wvId, db)
  else (model, db)

/-- The access gate shared by `registerWeapon` on the target citizen: when
`shouldCheckCitizenUserId` holds, `canManageInvariant(citizen?.userId, user, ...)`;
otherwise the citizen must merely exist. -/
def citizenGatePasses (checkCitizenUserId : Bool) (user : User)
    (citizen : Option Citizen) : Bool :=
  if checkCitizenUserId then canManageInvariant (citizen.bind Citizen.userId) user
  else citizen.isSome

/-- `registerWeapon(user, cad, body)`. `checkCitizenUserId` and `isCustomEnabled`
stand for `shouldCheckCitizenUserId({ cad, user })` and
`isFeatureEnabled(CUSTOM_TEXTFIELD_VALUES)`, both computed outside the excerpt.
The validated `WEAPON_SCHEMA` body is `data`. Result: the database after the call
together with the created weapon or the thrown exception; `none` when the serial
generator recursed past `fuel`. -/
def registerWeapon (user : User) (checkCitizenUserId isCustomEnabled : Bool)
    (data : WeaponData) (gen : Nat → String) (fuel : Nat) (db : Db) :
    Option (Db × Except ApiError Weapon) :=
  let citizen? := db.citizens.find? fun c => c.id == data.citizenId
  match citizen?, citizenGatePasses checkCitizenUserId user citizen? with
  | some citizen, true =>
    let resolved := resolveModelIdRegister isCustomEnabled data.model db
    let modelId := resolved.1
    let db := resolved.2
    match db.weaponValues.find? fun wv => wv.id == modelId with
    | none =>
      some (db, .error (.extendedBadRequest
        [("model", "Invalid weapon model. Please re-enter the weapon model.")]))
    | some _ =>
      match generateOrValidateSerialNumber db.weapons gen fuel 0
          (truthy data.serialNumber) none with
      | none => none
      | some (.error e) => some (db, .error e)
      | some (.ok serial) =>
        let weapon : Weapon :=
          { id := freshId db
            citizenId := citizen.id
            userId := truthy (some user.id)
            serialNumber := serial
            modelId := modelId
            registrationStatusId := data.registrationStatus
            createdAt := db.now }
        some ({ bump db with weapons := weapon :: db.weapons, now := db.now + 1 }, .ok weapon)
  | _, _ =>
    some (db, .error (.notFound (if checkCitizenUserId then "notFound" else "NotFound")))

/-- The `updateWeapon` branch on `CUSTOM_TEXTFIELD_VALUES`: `findFirst` a
`weaponValue` whose value case-insensitively equals `data.model`, then `upsert`
on its id (a no-op update when found, a create when not). -/
def resolveModelIdUpdate (isCustomEnabled : Bool) (model : String) (db : Db) :
    String × Db :=
  if isCustomEnabled then
    let weaponModel? := db.weaponValues.find? fun wv =>
      match db.values.find? fun v => v.id == wv.valueId with
      | some v => ciEq v.value model
      | none => false
    match weaponModel? with
    | some weaponModel => (weaponModel.id, db)
    | none =>
      let valueId := freshId db
      let db := { bump db with
        values := { id := valueId, value := model, isDefault := false, type := "WEAPON" }
          :: db.values }
      let wvId := freshId db
      let db := { bump db with
        weaponValues := ({ id := wvId, valueId := valueId } : WeaponValue) :: db.weaponValues }
      (wvId, db)
  else (model, db)

/-- `prisma.weapon.update({ where: { id }, data })`: replace the row with the
matching (primary-key unique) id. -/
def replaceWeapon (db : Db) (updated : Weapon) : Db :=
  { db with weapons := db.weapons.map fun w => if w.id == updated.id then updated else w }

/-- The access gate shared by `updateWeapon` and `deleteWeapon` on the target weapon:
when `shouldCheckCitizenUserId` holds, `canManageInvariant(weapon?.userId, user, ...)`;
otherwise the weapon must merely exist. -/
def weaponGatePasses (checkCitizenUserId : Bool) (user : User)
    (weapon : Option Weapon) : Bool :=
  if checkCitizenUserId then canManageInvariant (weapon.bind Weapon.userId) user
  else weapon.isSome

/-- `updateWeapon(user, cad, weaponId, body)`; parameters as in `registerWeapon`.
A falsy `data.serialNumber` leaves `serialNumber` out of the update (`undefined`);
a truthy one is validated against every other weapon before being written. -/
def updateWeapon (user : User) (checkCitizenUserId isCustomEnabled : Bool)
    (weaponId : String) (data : WeaponData) (gen : Nat → String) (fuel : Nat) (db : Db) :
    Option (Db × Except ApiError Weapon) :=
  let weapon? := db.weapons.find? fun w => w.id == weaponId
  match weapon?, weaponGatePasses checkCitizenUserId user weapon? with
  | some weapon, true =>
    let resolved := resolveModelIdUpdate isCustomEnabled data.model db
    let modelId := resolved.1
    let db := resolved.2
    match truthy data.serialNumber with
    | some s =>
      match generateOrValidateSerialNumber db.weapons gen fuel 0 (some s) (some weapon.id) with
      | none => none
      | some (.error e) => some (db, .error e)
      | some (.ok serial) =>
        let updated := { weapon with
          modelId := modelId
          registrationStatusId := data.registrationStatus
          serialNumber := serial }
        some (replaceWeapon db updated, .ok updated)
    | none =>
      let updated := { weapon with
        modelId := modelId
        registrationStatusId := data.registrationStatus }
      some (replaceWeapon db updated, .ok updated)
  | _, _ =>
    some (db, .error (.notFound (if checkCitizenUserId then "notFound" else "NotFound")))

/-- `deleteWeapon(user, cad, weaponId)`. -/
def deleteWeapon (user : User) (checkCitizenUserId : Bool) (weaponId : String) (db : Db) :
    Db × Except ApiError Bool :=
  let weapon? := db.weapons.find? fun w => w.id == weaponId
  match weapon?, weaponGatePasses checkCitizenUserId user weapon? with
  | some weapon, true =>
    ({ db with weapons := db.weapons.filter fun w => !(w.id == weapon.id) }, .ok true)
  | _, _ =>
    (db, .error (.notFound (if checkCitizenUserId then "notFound" else "NotFound")))

/-- Resolve a weapon's model display string: `weapon.model.value.value`
(`modelId → WeaponValue → Value`). -/
def weaponModelString (db : Db) (w : Weapon) : Option String := do
  let wv ← db.weaponValues.find? fun wv => wv.id == w.modelId
  let v ← db.values.find? fun v => v.id == wv.valueId
  pure v.value

/-- Resolve a weapon's registration-status display string:
`weapon.registrationStatus.value` (`registrationStatusId → Value`). -/
def weaponRegStatusString (db : Db) (w : Weapon) : Option String := do
  let v ← db.values.find? fun v => v.id == w.registrationStatusId
  pure v.value

/-- The `OR` filter of `getCitizenWeapons` for a truthy `query`: model value,
registration-status value, or serial number contains the query (insensitive).
A relation filter only matches when the relation resolves. -/
def weaponMatchesQuery (db : Db) (q : String) (w : Weapon) : Bool :=
  (match weaponModelString db w with
   | some s => ciContains s q
   | none => false) ||
  (match weaponRegStatusString db w with
   | some s => ciContains s q
   | none => false) ||
  ciContains w.serialNumber q

/-- The full `where` of `getCitizenWeapons`: `citizenId` plus the optional
query filter (spread in only when `query` is truthy). -/
def weaponWhere (db : Db) (citizenId : String) (query : Option String) (w : Weapon) :
    Bool :=
  w.citizenId == citizenId &&
    (match truthy query with
     | some q => weaponMatchesQuery db q w
     | none => true)

/-- Insert into a list kept sorted by `createdAt` descending. -/
def insertByCreatedAtDesc (w : Weapon) : List Weapon → List Weapon
  | [] => [w]
  | v :: vs =>
    if v.createdAt ≤ w.createdAt then w :: v :: vs else v :: insertByCreatedAtDesc w vs

/-- `orderBy: { createdAt: "desc" }`. -/
def sortByCreatedAtDesc (ws : List Weapon) : List Weapon :=
  ws.foldr insertByCreatedAtDesc []

/-- `getCitizenWeapons(citizenId, user, cad, skip, query)`: returns
`{ totalCount, weapons }` where `totalCount` counts every match and `weapons`
is the page `skip`/`take MAX_ITEMS_PER_TABLE_PAGE` of the matches sorted by
`createdAt` descending. -/
def getCitizenWeapons (user : User) (checkCitizenUserId : Bool) (citizenId : String)
    (skip : Nat) (query : Option String) (db : Db) :
    Except ApiError (Nat × List Weapon) :=
  let citizen? := db.citizens.find? fun c =>
    c.id == citizenId && (!checkCitizenUserId || c.userId == some user.id)
  match citizen? with
  | none => .error (.notFound "citizenNotFound")
  | some _ =>
    let matching := db.weapons.filter (weaponWhere db citizenId query)
    let totalCount := matching.length
    let weapons := ((sortByCreatedAtDesc matching).drop skip).take MAX_ITEMS_PER_TABLE_PAGE
    .ok (totalCount, weapons)

/-- The validated `NAME_CHANGE_REQUEST_SCHEMA` body. -/
structure NameChangeData where
  citizenId : String
  newName : String
  newSurname : String
  deriving Repr, DecidableEq

/-- `requestNameChange(body, user)`. Newly created requests start in status
`"PENDING"` (modelled from the spec: the schema default status of a name-change
request, set outside the excerpt, is pending). -/
def requestNameChange (user : User) (data : NameChangeData) (db : Db) :
    Db × Except ApiError NameChangeRequest :=
  match db.citizens.find? fun c => c.id == data.citizenId && c.userId == some user.id with
  | none => (db, .error (.notFound "citizenNotFound"))
  | some citizen =>
    let prevFullname := citizen.name ++ " " ++ citizen.surname
    let newFullname := data.newName ++ " " ++ data.newSurname
    if prevFullname == newFullname then
      (db, .error (.extendedBadRequest [("citizenId", "nameChangeRequestNotNew")]))
    else
      match db.nameChangeRequests.find? fun r =>
          r.citizenId == data.citizenId && r.userId == user.id && r.status == "PENDING" with
      | some _ => (db, .error (.extendedBadRequest [("citizenId", "alreadyPendingNameChange")]))
      | none =>
        let request : NameChangeRequest :=
          { id := freshId db
            citizenId := data.citizenId
            userId := user.id
            newName := data.newName
            newSurname := data.newSurname
            status := "PENDING" }
        ({ bump db with nameChangeRequests := request :: db.nameChangeRequests }, .ok request)

/-! ### `getActiveOfficer` (src/unnamed/part_001) -/

/-- A `StatusValue` relation (the `status` of an officer or combined unit);
only `shouldDo` is consulted here. -/
structure StatusValue where
  shouldDo : String
  deriving Repr, DecidableEq

/-- An `Officer` record; `status` and `lastStatusChangeTimestamp` are nullable. -/
structure Officer where
  id : String
  userId : String
  status : Option StatusValue
  lastStatusChangeTimestamp : Option Int
  deriving Repr, DecidableEq

/-- A `CombinedLeoUnit` record with its member officers' user ids. -/
structure CombinedUnit where
  id : String
  status : Option StatusValue
  officerUserIds : List String
  deriving Repr, DecidableEq

/-- The requesting user as `getActiveOfficer` sees it. The two permission fields
are modelled from the spec: `hasPermission` (package `@snailycad/permissions`, not
in the excerpt) decides dispatch permissions (fallback `user.isDispatch`) and the
default LEO permissions (fallback `user.isLeo`); we carry its two results. -/
structure LeoUser where
  id : String
  hasDispatchPermissions : Bool
  hasLeoPermissions : Bool
  deriving Repr, DecidableEq

/-- The request: only the `is-from-dispatch` header is consulted. -/
structure LeoReq where
  isFromDispatchHeader : Option String
  deriving Repr, DecidableEq

/-- The database state `getActiveOfficer` queries. `unitInactivityCutoff` is
modelled from the spec: `getInactivityFilter(cad, "unitInactivityTimeout", ...)`
(lib, not in the excerpt) yields, when the CAD's unit inactivity timeout is set,
a `lastStatusChangeTimestamp` cutoff to filter by; `none` when it yields no filter. -/
structure LeoDb where
  combinedUnits : List CombinedUnit
  officers : List Officer
  unitInactivityCutoff : Option Int
  deriving Repr, DecidableEq

/-- What `getActiveOfficer` resolves to on success: `null` for dispatch, a
combined unit, or a solo officer. -/
inductive ActiveOfficerResult where
  | dispatchNull
  | combinedUnit (u : CombinedUnit)
  | officer (o : Officer)
  deriving Repr, DecidableEq

/-- The `prisma.combinedLeoUnit.findFirst` filter: not off-duty
(`NOT: { status: { shouldDo: "SET_OFF_DUTY" } }`, which a null status passes) and
some member officer belongs to the user. -/
def combinedUnitFilter (user : LeoUser) (u : CombinedUnit) : Bool :=
  !((u.status.map StatusValue.shouldDo) == some "SET_OFF_DUTY") &&
    u.officerUserIds.contains user.id

/-- The disjunction of pushed officer `filters`: off-duty status, null status, and
(only when the inactivity filter exists) `lastStatusChangeTimestamp ≤ cutoff`
(a null timestamp never satisfies the `lte` comparison). -/
def officerExcludedFilters (cutoff : Option Int) (o : Officer) : Bool :=
  ((o.status.map StatusValue.shouldDo) == some "SET_OFF_DUTY") ||
  (o.status == none) ||
  (match cutoff with
   | some c =>
     match o.lastStatusChangeTimestamp with
     | some ts => ts ≤ c
     | none => false
   | none => false)

/-- The `prisma.officer.findFirst` filter: the user's officer, `NOT` any of the
excluded filters. -/
def officerFilter (cutoff : Option Int) (user : LeoUser) (o : Officer) : Bool :=
  o.userId == user.id && !(officerExcludedFilters cutoff o)

/-- `getActiveOfficer(req, user, ctx)`. -/
def getActiveOfficer (req : LeoReq) (user : LeoUser) (db : LeoDb) :
    Except ApiError ActiveOfficerResult :=
  if req.isFromDispatchHeader == some "true" then
    if !user.hasDispatchPermissions then
      .error (.unauthorized "Must be dispatch to use this header.")
    else
      .ok .dispatchNull
  else
    if !user.hasLeoPermissions then
      .error (.forbidden "Invalid Permissions")
    else
      match db.combinedUnits.find? (combinedUnitFilter user),
          db.officers.find? (officerFilter db.unitInactivityCutoff user) with
      | some u, _ => .ok (.combinedUnit u)
      | none, some o => .ok (.officer o)
      | none, none => .error (.badRequest "noActiveOfficer")

/-- Fixture: a citizen with 13 registered weapons. -/
def exDb8 : Db :=
  ⟨[⟨"c1", none, "A", "B"⟩],
    (List.range 13).map (fun n =>
      ({ id := toString n, citizenId := "c1", userId := none,
         serialNumber := toString n, modelId := "m",
         registrationStatusId := "r", createdAt := n } : Weapon)),
    [], [], [], 0, 0⟩

/-- Fixture: a random-string stream whose first output collides (case-insensitively)
with serial `"DUPSERIAL0"` and whose later outputs do not. -/
def exGen3 : Nat → String
  | 0 => "dupserial0"
  | _ + 1 => "ABCDEFGHIJ"

/-- Fixture: a citizen with two weapons whose serial numbers are `"ABC123"` and
`"XYZ789"`, and one registered weapon model `"m1"`. -/
def exDb1 : Db :=
  ⟨[⟨"c1", some "u1", "A", "B"⟩],
    [⟨"w1", "c1", some "u1", "ABC123", "m1", "r1", 0⟩,
     ⟨"w2", "c1", some "u1", "XYZ789", "m1", "r1", 1⟩],
    [⟨"m1", "v1"⟩], [⟨"v1", "Glock", true, "WEAPON"⟩], [], 0, 5⟩

/-- The invariant the spec states: at most one `PENDING` name-change request per
citizen. -/
abbrev atMostOnePendingPerCitizen (rs : List NameChangeRequest) : Prop :=
  rs.Pairwise fun a b =>
    ¬(a.status = "PENDING" ∧ b.status = "PENDING" ∧ a.citizenId = b.citizenId)

/-- The invariant the code actually maintains: at most one `PENDING` name-change
request per citizen-and-user pair. -/
abbrev atMostOnePendingPerCitizenUser (rs : List NameChangeRequest) : Prop :=
  rs.Pairwise fun a b =>
    ¬(a.status = "PENDING" ∧ b.status = "PENDING" ∧ a.citizenId = b.citizenId ∧
      a.userId = b.userId)

/-- Fixture: citizen `"c1"` owned by user `"u2"`, with a `PENDING` name-change
request filed by a different user `"u1"`. -/
def exDb7 : Db :=
  ⟨[⟨"c1", some "u2", "Alice", "Smith"⟩], [], [], [],
    [⟨"r1", "c1", "u1", "X", "Y", "PENDING"⟩], 0, 0⟩

/-- Fixture: citizen `"c2"` owned by user `"u1"`, with a `PENDING` request by `"u1"`. -/
def exDb7b : Db :=
  ⟨[⟨"c2", some "u1", "A", "B"⟩], [], [], [],
    [⟨"r1", "c2", "u1", "X", "Y", "PENDING"⟩], 0, 0⟩

/-- Fixture: citizen `"c2"` owned by user `"u1"`, no requests. -/
def exDb7c : Db :=
  ⟨[⟨"c2", some "u1", "A", "B"⟩], [], [], [], [], 0, 0⟩

/-- Serial-number uniqueness: no two weapons have case-insensitively equal serial
numbers. -/
abbrev serialsUnique (ws : List Weapon) : Prop :=
  ws.Pairwise fun a b => ciEq a.serialNumber b.serialNumber = false

/-- Primary-key uniqueness of the `Weapon` table (enforced by the database). -/
abbrev weaponIdsUnique (ws : List Weapon) : Prop :=
  ws.Pairwise fun a b => a.id ≠ b.id

/-! ### Theorems -/

theorem getActiveOfficer_ok_officer_inv (req : LeoReq) (user : LeoUser) (db : LeoDb)
    (o : Officer) (h : getActiveOfficer req user db = .ok (.officer o)) :
    db.officers.find? (officerFilter db.unitInactivityCutoff user) = some o := by
  unfold getActiveOfficer at h
  split at h
  · split at h <;> simp_all
  · split at h
    · simp_all
    · split at h
      · simp_all
      · next o' hcu hof =>
          simp only [Except.ok.injEq, ActiveOfficerResult.officer.injEq] at h
          subst h
          exact hof
      · simp_all

/-- C5: the solo-officer lookup of `getActiveOfficer` filters by off-duty status and
inactivity timeout: an officer record is returned only if it belongs to the requesting
user, its status is not null, its status does not have `shouldDo = SET_OFF_DUTY`, and,
when the CAD's unit inactivity timeout yields a filter, its
`lastStatusChangeTimestamp` is not at or before the cutoff. -/
theorem getActiveOfficer_solo_filter (req : LeoReq) (user : LeoUser) (db : LeoDb)
    (o : Officer) (h : getActiveOfficer req user db = .ok (.officer o)) :
    o.userId = user.id ∧
    o.status ≠ none ∧
    (∀ s, o.status = some s → s.shouldDo ≠ "SET_OFF_DUTY") ∧
    (∀ c ts, db.unitInactivityCutoff = some c → o.lastStatusChangeTimestamp = some ts →
      ¬ ts ≤ c) := by
  have hp := List.find?_some (getActiveOfficer_ok_officer_inv req user db o h)
  unfold officerFilter at hp
  simp only [Bool.and_eq_true, Bool.not_eq_true', beq_iff_eq] at hp
  obtain ⟨h1, h2⟩ := hp
  unfold officerExcludedFilters at h2
  simp only [Bool.or_eq_false_iff] at h2
  obtain ⟨⟨hoff, hnull⟩, hts⟩ := h2
  refine ⟨h1, ?_, ?_, ?_⟩
  · intro hnone
    rw [hnone] at hnull
    simp at hnull
  · intro s hs
    rw [hs] at hoff
    simp only [Option.map_some', beq_eq_false_iff_ne, ne_eq, Option.some.injEq] at hoff
    exact hoff
  · intro c ts hc hts'
    rw [hc, hts'] at hts
    simpa using hts

/-- C5 witness: the solo-filter theorem applied at a concrete on-duty officer. -/
theorem getActiveOfficer_solo_filter_witness :
    (⟨"o1", "u1", some ⟨"ON_DUTY"⟩, some 5⟩ : Officer).userId = ("u1" : String) :=
  (getActiveOfficer_solo_filter ⟨none⟩ ⟨"u1", false, true⟩
    ⟨[], [⟨"o1", "u1", some ⟨"ON_DUTY"⟩, some 5⟩], some 3⟩
    ⟨"o1", "u1", some ⟨"ON_DUTY"⟩, some 5⟩ rfl).1

/-- C4: `getActiveOfficer` resolves by a fixed precedence chain: the dispatch-header
bypass first, then the combined-unit lookup, then the solo-officer lookup; for a
non-dispatch request by a user who belongs both to a non-off-duty combined unit and
to an active solo officer record, the combined unit is returned, not the officer. -/
theorem getActiveOfficer_precedence (req : LeoReq) (user : LeoUser) (db : LeoDb)
    (cu : CombinedUnit) (o : Officer) :
    (req.isFromDispatchHeader = some "true" → user.hasDispatchPermissions = true →
      getActiveOfficer req user db = .ok .dispatchNull) ∧
    ((req.isFromDispatchHeader == some "true") = false → user.hasLeoPermissions = true →
      db.combinedUnits.find? (combinedUnitFilter user) = some cu →
      db.officers.find? (officerFilter db.unitInactivityCutoff user) = some o →
      getActiveOfficer req user db = .ok (.combinedUnit cu)) := by
  constructor
  · intro h1 h2
    simp [getActiveOfficer, h1, h2]
  · intro h1 h2 hcu ho
    simp [getActiveOfficer, h1, h2, hcu, ho]

/-- C4 witness: with both a combined unit and an active officer present, the combined
unit wins. -/
theorem getActiveOfficer_precedence_witness :
    getActiveOfficer ⟨none⟩ ⟨"u1", false, true⟩
      ⟨[⟨"cu1", some ⟨"ON_DUTY"⟩, ["u1"]⟩], [⟨"o1", "u1", some ⟨"ON_DUTY"⟩, none⟩], none⟩ =
      .ok (.combinedUnit ⟨"cu1", some ⟨"ON_DUTY"⟩, ["u1"]⟩) :=
  (getActiveOfficer_precedence ⟨none⟩ ⟨"u1", false, true⟩
      ⟨[⟨"cu1", some ⟨"ON_DUTY"⟩, ["u1"]⟩], [⟨"o1", "u1", some ⟨"ON_DUTY"⟩, none⟩], none⟩
      ⟨"cu1", some ⟨"ON_DUTY"⟩, ["u1"]⟩ ⟨"o1", "u1", some ⟨"ON_DUTY"⟩, none⟩).2
    rfl rfl rfl rfl

/-- C6: the dispatch-header bypass of `getActiveOfficer`: with the `is-from-dispatch`
header equal to `"true"`, a user with dispatch permissions gets `null` back and a user
without them gets `Unauthorized`; without the header, a user lacking the default LEO
permissions gets `Forbidden`. -/
theorem getActiveOfficer_dispatch_header (req : LeoReq) (user : LeoUser) (db : LeoDb) :
    (req.isFromDispatchHeader = some "true" → user.hasDispatchPermissions = true →
      getActiveOfficer req user db = .ok .dispatchNull) ∧
    (req.isFromDispatchHeader = some "true" → user.hasDispatchPermissions = false →
      getActiveOfficer req user db =
        .error (.unauthorized "Must be dispatch to use this header.")) ∧
    (req.isFromDispatchHeader = none → user.hasLeoPermissions = false →
      getActiveOfficer req user db = .error (.forbidden "Invalid Permissions")) := by
  refine ⟨?_, ?_, ?_⟩ <;> intro h1 h2 <;> simp [getActiveOfficer, h1, h2]

/-- C6 witness: the three dispatch-header behaviours at concrete requests. -/
theorem getActiveOfficer_dispatch_header_witness :
    getActiveOfficer ⟨some "true"⟩ ⟨"u1", true, true⟩ ⟨[], [], none⟩ = .ok .dispatchNull ∧
    getActiveOfficer ⟨some "true"⟩ ⟨"u1", false, true⟩ ⟨[], [], none⟩ =
      .error (.unauthorized "Must be dispatch to use this header.") ∧
    getActiveOfficer ⟨none⟩ ⟨"u1", false, false⟩ ⟨[], [], none⟩ =
      .error (.forbidden "Invalid Permissions") :=
  ⟨(getActiveOfficer_dispatch_header ⟨some "true"⟩ ⟨"u1", true, true⟩ ⟨[], [], none⟩).1 rfl rfl,
   (getActiveOfficer_dispatch_header ⟨some "true"⟩ ⟨"u1", false, true⟩ ⟨[], [], none⟩).2.1 rfl rfl,
   (getActiveOfficer_dispatch_header ⟨none⟩ ⟨"u1", false, false⟩ ⟨[], [], none⟩).2.2 rfl rfl⟩

/-- C9: when the requested new full name equals the citizen's current full name,
`requestNameChange` throws `ExtendedBadRequest` (field `citizenId`, value
`nameChangeRequestNotNew`) and the database is unchanged (no request is created). -/
theorem requestNameChange_rejects_same_name (user : User) (data : NameChangeData)
    (db : Db) (c : Citizen)
    (hc : db.citizens.find?
      (fun c => c.id == data.citizenId && c.userId == some user.id) = some c)
    (hname : c.name ++ " " ++ c.surname = data.newName ++ " " ++ data.newSurname) :
    requestNameChange user data db =
      (db, .error (.extendedBadRequest [("citizenId", "nameChangeRequestNotNew")])) := by
  unfold requestNameChange
  rw [hc]
  simp [hname]

/-- C9 witness: requesting the unchanged name "Alice Smith" is rejected. -/
theorem requestNameChange_rejects_same_name_witness :
    requestNameChange ⟨"u1", "USER"⟩ ⟨"c1", "Alice", "Smith"⟩
      ⟨[⟨"c1", some "u1", "Alice", "Smith"⟩], [], [], [], [], 0, 0⟩ =
      (⟨[⟨"c1", some "u1", "Alice", "Smith"⟩], [], [], [], [], 0, 0⟩,
       .error (.extendedBadRequest [("citizenId", "nameChangeRequestNotNew")])) :=
  requestNameChange_rejects_same_name ⟨"u1", "USER"⟩ ⟨"c1", "Alice", "Smith"⟩
    ⟨[⟨"c1", some "u1", "Alice", "Smith"⟩], [], [], [], [], 0, 0⟩
    ⟨"c1", some "u1", "Alice", "Smith"⟩ rfl rfl

theorem mem_insertByCreatedAtDesc {v w : Weapon} {l : List Weapon} :
    v ∈ insertByCreatedAtDesc w l ↔ v = w ∨ v ∈ l := by
  induction l with
  | nil => simp [insertByCreatedAtDesc]
  | cons x xs ih =>
    unfold insertByCreatedAtDesc
    split
    · simp [List.mem_cons]
    · simp [List.mem_cons, ih]
      tauto

theorem mem_sortByCreatedAtDesc {v : Weapon} {l : List Weapon} :
    v ∈ sortByCreatedAtDesc l ↔ v ∈ l := by
  induction l with
  | nil => simp [sortByCreatedAtDesc]
  | cons x xs ih =>
    have hstep : sortByCreatedAtDesc (x :: xs) =
        insertByCreatedAtDesc x (sortByCreatedAtDesc xs) := rfl
    rw [hstep, mem_insertByCreatedAtDesc, List.mem_cons, ih]

/-- C8: `getCitizenWeapons` returns at most `MAX_ITEMS_PER_TABLE_PAGE` (12) weapons
regardless of how many match, every returned weapon is a matching weapon of the
database, and `totalCount` counts all matching weapons, not just the returned page. -/
theorem getCitizenWeapons_pagination (user : User) (check : Bool) (citizenId : String)
    (skip : Nat) (query : Option String) (db : Db) (tc : Nat) (ws : List Weapon)
    (h : getCitizenWeapons user check citizenId skip query db = .ok (tc, ws)) :
    ws.length ≤ MAX_ITEMS_PER_TABLE_PAGE ∧
    tc = (db.weapons.filter (weaponWhere db citizenId query)).length ∧
    ∀ w ∈ ws, w ∈ db.weapons ∧ weaponWhere db citizenId query w = true := by
  simp only [getCitizenWeapons] at h
  split at h
  · simp at h
  · simp only [Except.ok.injEq, Prod.mk.injEq] at h
    obtain ⟨htc, hws⟩ := h
    refine ⟨?_, htc.symm, ?_⟩
    · rw [← hws]
      exact List.length_take_le _ _
    · intro w hw
      rw [← hws] at hw
      have h1 := List.mem_of_mem_drop (List.mem_of_mem_take hw)
      rw [mem_sortByCreatedAtDesc] at h1
      exact List.mem_filter.mp h1

/-- C8 witness: with 13 matching weapons the reported total count is 13. -/
theorem getCitizenWeapons_pagination_witness :
    (13 : Nat) = (exDb8.weapons.filter (weaponWhere exDb8 "c1" none)).length :=
  (getCitizenWeapons_pagination ⟨"u1", "USER"⟩ false "c1" 0 none exDb8 13 _ rfl).2.1

theorem findCollision_none_forall {weapons : List Weapon} {s : String}
    (h : findCollision weapons s none = none) :
    ∀ w ∈ weapons, ciEq w.serialNumber s = false := by
  intro w hw
  have := List.find?_eq_none.mp h w hw
  simpa using this

/-- C3: with no explicit serial number supplied, `generateOrValidateSerialNumber`
generates a random string of fixed length `SERIAL_NUMBER_LENGTH` (10), checks it
against the existing weapons case-insensitively, retries recursively with a fresh
random string on collision, and any value it returns has length 10 and collides with
no existing weapon's serial number. -/
theorem generateOrValidateSerialNumber_generation (weapons : List Weapon)
    (gen : Nat → String) (hlen : ∀ i, (gen i).length = SERIAL_NUMBER_LENGTH) :
    (∀ fuel i, generateOrValidateSerialNumber weapons gen (fuel + 1) i none none =
      match findCollision weapons (gen i) none with
      | none => some (.ok (gen i))
      | some _ => generateOrValidateSerialNumber weapons gen fuel (i + 1) none none) ∧
    (∀ fuel i s,
      generateOrValidateSerialNumber weapons gen fuel i none none = some (.ok s) →
      s.length = SERIAL_NUMBER_LENGTH ∧ (∃ j, s = gen j) ∧
      ∀ w ∈ weapons, ciEq w.serialNumber s = false) := by
  constructor
  · intro fuel i
    conv_lhs => rw [generateOrValidateSerialNumber]
    simp only [Option.getD_none]
  · intro fuel
    induction fuel with
    | zero =>
      intro i s h
      simp [generateOrValidateSerialNumber] at h
    | succ n ih =>
      intro i s h
      unfold generateOrValidateSerialNumber at h
      simp only [Option.getD_none] at h
      cases hfc : findCollision weapons (gen i) none with
      | none =>
        rw [hfc] at h
        simp only [Option.some.injEq, Except.ok.injEq] at h
        subst h
        exact ⟨hlen i, ⟨i, rfl⟩, findCollision_none_forall hfc⟩
      | some w' =>
        rw [hfc] at h
        exact ih (i + 1) s h

/-- C3 witness: a first random string that collides only case-insensitively is
rejected and the retry's fresh string is returned. -/
theorem generateOrValidateSerialNumber_generation_witness :
    ("ABCDEFGHIJ" : String).length = SERIAL_NUMBER_LENGTH ∧
    generateOrValidateSerialNumber
      [⟨"w0", "c1", none, "DUPSERIAL0", "m", "r", 0⟩] exGen3 2 0 none none =
      some (.ok "ABCDEFGHIJ") :=
  ⟨((generateOrValidateSerialNumber_generation
      [⟨"w0", "c1", none, "DUPSERIAL0", "m", "r", 0⟩] exGen3
      (fun i => by cases i <;> rfl)).2 2 0 "ABCDEFGHIJ" rfl).1,
   rfl⟩

theorem resolveModelIdRegister_weapons (b : Bool) (m : String) (db : Db) :
    (resolveModelIdRegister b m db).2.weapons = db.weapons := by
  cases b <;> rfl

theorem resolveModelIdUpdate_weapons (b : Bool) (m : String) (db : Db) :
    (resolveModelIdUpdate b m db).2.weapons = db.weapons := by
  cases b
  · rfl
  · unfold resolveModelIdUpdate
    simp only [if_true]
    split <;> rfl

/-- C1: a weapon-registration or weapon-update call whose body supplies an explicit
serial number that case-insensitively equals the serial number of some existing
weapon (other than the weapon being updated) throws `ExtendedBadRequest` with field
`serialNumber` and value `serialNumberInUse`. -/
theorem duplicate_serial_number_rejected (user : User) (check isCustom : Bool)
    (data : WeaponData) (gen : Nat → String) (fuel : Nat) (db : Db) (s : String)
    (weaponId : String)
    (hs : truthy data.serialNumber = some s) (hfuel : 0 < fuel) :
    (∀ c, db.citizens.find? (fun c => c.id == data.citizenId) = some c →
      citizenGatePasses check user (some c) = true →
      ((resolveModelIdRegister isCustom data.model db).2.weaponValues.find?
        (fun wv => wv.id == (resolveModelIdRegister isCustom data.model db).1)).isSome →
      (∃ w ∈ db.weapons, ciEq w.serialNumber s = true) →
      registerWeapon user check isCustom data gen fuel db =
        some ((resolveModelIdRegister isCustom data.model db).2,
          .error (.extendedBadRequest [("serialNumber", "serialNumberInUse")]))) ∧
    (∀ w0, db.weapons.find? (fun w => w.id == weaponId) = some w0 →
      weaponGatePasses check user (some w0) = true →
      (∃ v ∈ db.weapons, v.id ≠ w0.id ∧ ciEq v.serialNumber s = true) →
      updateWeapon user check isCustom weaponId data gen fuel db =
        some ((resolveModelIdUpdate isCustom data.model db).2,
          .error (.extendedBadRequest [("serialNumber", "serialNumberInUse")]))) := by
  obtain ⟨k, rfl⟩ : ∃ k, fuel = k + 1 := ⟨fuel - 1, by omega⟩
  constructor
  · intro c hc hgate hmodel hcol
    obtain ⟨wv, hwv⟩ := Option.isSome_iff_exists.mp hmodel
    obtain ⟨w, hw, hciEq⟩ := hcol
    have hfc : ∃ w', findCollision
        (resolveModelIdRegister isCustom data.model db).2.weapons s none = some w' := by
      rw [resolveModelIdRegister_weapons]
      refine Option.isSome_iff_exists.mp (List.find?_isSome.mpr ⟨w, hw, ?_⟩)
      simp [findCollision, hciEq]
    obtain ⟨w', hw'⟩ := hfc
    unfold registerWeapon
    rw [hc]
    dsimp only
    rw [hgate]
    dsimp only
    rw [hwv]
    dsimp only
    rw [hs]
    unfold generateOrValidateSerialNumber
    dsimp only [Option.getD]
    rw [hw']
  · intro w0 hw0 hgate hcol
    obtain ⟨v, hv, hvne, hciEq⟩ := hcol
    have hfc : ∃ w', findCollision
        (resolveModelIdUpdate isCustom data.model db).2.weapons s (some w0.id) = some w' := by
      rw [resolveModelIdUpdate_weapons]
      refine Option.isSome_iff_exists.mp (List.find?_isSome.mpr ⟨v, hv, ?_⟩)
      simp [hciEq, hvne]
    obtain ⟨w', hw'⟩ := hfc
    unfold updateWeapon
    rw [hw0]
    dsimp only
    rw [hgate]
    dsimp only
    rw [hs]
    unfold generateOrValidateSerialNumber
    dsimp only [Option.getD]
    rw [hw']

/-- C1 witness: registering or updating with serial `"abc123"` while `"ABC123"`
exists is rejected on field `serialNumber`. -/
theorem duplicate_serial_number_rejected_witness :
    registerWeapon ⟨"u1", "USER"⟩ false false ⟨"c1", "m1", "r1", some "abc123"⟩
        (fun _ => "Q") 1 exDb1 =
      some (exDb1, .error (.extendedBadRequest [("serialNumber", "serialNumberInUse")])) ∧
    updateWeapon ⟨"u1", "USER"⟩ false false "w2" ⟨"c1", "m1", "r1", some "abc123"⟩
        (fun _ => "Q") 1 exDb1 =
      some (exDb1, .error (.extendedBadRequest [("serialNumber", "serialNumberInUse")])) :=
  ⟨(duplicate_serial_number_rejected ⟨"u1", "USER"⟩ false false
      ⟨"c1", "m1", "r1", some "abc123"⟩ (fun _ => "Q") 1 exDb1 "abc123" "w2"
      rfl Nat.one_pos).1 ⟨"c1", some "u1", "A", "B"⟩ rfl rfl rfl
      ⟨⟨"w1", "c1", some "u1", "ABC123", "m1", "r1", 0⟩, by decide, by decide⟩,
   (duplicate_serial_number_rejected ⟨"u1", "USER"⟩ false false
      ⟨"c1", "m1", "r1", some "abc123"⟩ (fun _ => "Q") 1 exDb1 "abc123" "w2"
      rfl Nat.one_pos).2 ⟨"w2", "c1", some "u1", "XYZ789", "m1", "r1", 1⟩ rfl rfl
      ⟨⟨"w1", "c1", some "u1", "ABC123", "m1", "r1", 0⟩, by decide, by decide, by decide⟩⟩

/-- C10: when the validated body's `serialNumber` is absent or empty, `updateWeapon`
leaves the weapon's serial number unchanged while still updating `modelId` and
`registrationStatusId`, and modifies no other weapon record. -/
theorem updateWeapon_empty_serial_frame (user : User) (check isCustom : Bool)
    (weaponId : String) (data : WeaponData) (gen : Nat → String) (fuel : Nat) (db : Db)
    (w0 : Weapon) (db' : Db) (u : Weapon)
    (hw : db.weapons.find? (fun w => w.id == weaponId) = some w0)
    (hgate : weaponGatePasses check user (some w0) = true)
    (hserial : truthy data.serialNumber = none)
    (h : updateWeapon user check isCustom weaponId data gen fuel db = some (db', .ok u)) :
    u.serialNumber = w0.serialNumber ∧
    u.registrationStatusId = data.registrationStatus ∧
    u.modelId = (resolveModelIdUpdate isCustom data.model db).1 ∧
    db'.weapons = db.weapons.map (fun w => if w.id == w0.id then u else w) ∧
    ∀ v ∈ db.weapons, v.id ≠ w0.id → v ∈ db'.weapons := by
  unfold updateWeapon at h
  rw [hw] at h
  dsimp only at h
  rw [hgate] at h
  dsimp only at h
  rw [hserial] at h
  simp only [Option.some.injEq, Prod.mk.injEq, Except.ok.injEq] at h
  obtain ⟨hdb, hu⟩ := h
  subst hu
  refine ⟨rfl, rfl, rfl, ?_, ?_⟩
  · rw [← hdb]
    unfold replaceWeapon
    dsimp only
    rw [resolveModelIdUpdate_weapons]
  · intro v hv hne
    rw [← hdb]
    unfold replaceWeapon
    dsimp only
    rw [resolveModelIdUpdate_weapons]
    refine List.mem_map.mpr ⟨v, hv, ?_⟩
    simp [hne]

/-- C10 witness: an update without a serial number keeps `"XYZ789"`. -/
theorem updateWeapon_empty_serial_frame_witness :
    (⟨"w2", "c1", some "u1", "XYZ789", "m2", "r2", 1⟩ : Weapon).serialNumber =
      (⟨"w2", "c1", some "u1", "XYZ789", "m1", "r1", 1⟩ : Weapon).serialNumber :=
  (updateWeapon_empty_serial_frame ⟨"u1", "USER"⟩ false false "w2"
    ⟨"c1", "m2", "r2", none⟩ (fun _ => "Q") 1 exDb1
    ⟨"w2", "c1", some "u1", "XYZ789", "m1", "r1", 1⟩
    (replaceWeapon exDb1 ⟨"w2", "c1", some "u1", "XYZ789", "m2", "r2", 1⟩)
    ⟨"w2", "c1", some "u1", "XYZ789", "m2", "r2", 1⟩
    rfl rfl rfl rfl).1

/-- C7 counterexample: a database satisfying "at most one PENDING name-change request
per citizen", in which citizen `"c1"` already has a PENDING request filed by user
`"u1"`, where a request by `"u2"` (who owns the citizen) is NOT rejected with
`alreadyPendingNameChange` and leaves the citizen with two PENDING requests: the
code's existence check also filters by `userId`, so the claimed per-citizen invariant
is not enforced. -/
theorem requestNameChange_per_citizen_counterexample :
    atMostOnePendingPerCitizen exDb7.nameChangeRequests ∧
    (exDb7.nameChangeRequests.filter fun r =>
      r.citizenId == "c1" && r.status == "PENDING").length = 1 ∧
    (requestNameChange ⟨"u2", "USER"⟩ ⟨"c1", "Carol", "Jones"⟩ exDb7).2 ≠
      .error (.extendedBadRequest [("citizenId", "alreadyPendingNameChange")]) ∧
    ¬ atMostOnePendingPerCitizen
      (requestNameChange ⟨"u2", "USER"⟩
        ⟨"c1", "Carol", "Jones"⟩ exDb7).1.nameChangeRequests := by
  refine ⟨by decide, by decide, by decide, by decide⟩

/-- C7 (amended): `requestNameChange` enforces at most one PENDING name-change
request per citizen-and-user pair: it throws `ExtendedBadRequest` (field `citizenId`,
value `alreadyPendingNameChange`) whenever a PENDING request for the target citizen
by the requesting user exists (once the citizen-ownership and name-is-new checks
pass), and any successful call preserves the per-citizen-and-user invariant. -/
theorem requestNameChange_per_citizen_user_invariant (user : User)
    (data : NameChangeData) (db : Db)
    (hinv : atMostOnePendingPerCitizenUser db.nameChangeRequests) :
    (∀ db' req, requestNameChange user data db = (db', .ok req) →
      atMostOnePendingPerCitizenUser db'.nameChangeRequests) ∧
    (∀ c, db.citizens.find?
        (fun c => c.id == data.citizenId && c.userId == some user.id) = some c →
      (c.name ++ " " ++ c.surname == data.newName ++ " " ++ data.newSurname) = false →
      (db.nameChangeRequests.find? (fun r =>
        r.citizenId == data.citizenId && r.userId == user.id &&
        r.status == "PENDING")).isSome →
      requestNameChange user data db =
        (db, .error (.extendedBadRequest [("citizenId", "alreadyPendingNameChange")]))) := by
  constructor
  · intro db' req h
    unfold requestNameChange at h
    split at h
    · simp at h
    · split at h
      · dsimp only at h
        split at h <;> simp at h
      · next hpend =>
          dsimp only at h
          split at h
          · simp at h
          · simp only [Prod.mk.injEq, Except.ok.injEq] at h
            obtain ⟨hdb, hreq⟩ := h
            subst hdb
            unfold atMostOnePendingPerCitizenUser
            dsimp only
            refine List.pairwise_cons.mpr ⟨?_, hinv⟩
            rintro r hr ⟨hp1, hp2, hcid, huid⟩
            refine List.find?_eq_none.mp hpend r hr ?_
            dsimp only at hcid huid
            simp [← hcid, ← huid, hp2]
  · intro c hc hname hpend
    obtain ⟨r, hr⟩ := Option.isSome_iff_exists.mp hpend
    unfold requestNameChange
    rw [hc]
    dsimp only
    simp only [hname, Bool.false_eq_true, if_false]
    rw [hr]

/-- C7 (amended) witness: the rejection at a concrete pending request by the same
user, and invariant preservation on a successful request. -/
theorem requestNameChange_per_citizen_user_invariant_witness :
    requestNameChange ⟨"u1", "USER"⟩ ⟨"c2", "C", "D"⟩ exDb7b =
      (exDb7b, .error (.extendedBadRequest [("citizenId", "alreadyPendingNameChange")])) ∧
    atMostOnePendingPerCitizenUser
      (requestNameChange ⟨"u1", "USER"⟩ ⟨"c2", "C", "D"⟩ exDb7c).1.nameChangeRequests :=
  ⟨(requestNameChange_per_citizen_user_invariant ⟨"u1", "USER"⟩ ⟨"c2", "C", "D"⟩
      exDb7b (by decide)).2 ⟨"c2", some "u1", "A", "B"⟩ rfl rfl rfl,
   (requestNameChange_per_citizen_user_invariant ⟨"u1", "USER"⟩ ⟨"c2", "C", "D"⟩
      exDb7c (by decide)).1 _ _ rfl⟩

theorem ciEq_symm (a b : String) : ciEq a b = ciEq b a := by
  unfold ciEq
  by_cases h : strLower a = strLower b
  · simp [h]
  · have h' : strLower b ≠ strLower a := fun hh => h hh.symm
    simp [h, h']

theorem generateOrValidateSerialNumber_ok_noCollision {weapons : List Weapon}
    {gen : Nat → String} {fuel i : Nat} {sOpt excl : Option String} {s : String}
    (h : generateOrValidateSerialNumber weapons gen fuel i sOpt excl = some (.ok s)) :
    findCollision weapons s excl = none := by
  induction fuel generalizing i with
  | zero => simp [generateOrValidateSerialNumber] at h
  | succ n ih =>
    unfold generateOrValidateSerialNumber at h
    dsimp only at h
    cases hfc : findCollision weapons (sOpt.getD (gen i)) excl with
    | none =>
      rw [hfc] at h
      simp only [Option.some.injEq, Except.ok.injEq] at h
      subst h
      exact hfc
    | some w' =>
      rw [hfc] at h
      cases sOpt with
      | some s0 => simp at h
      | none => exact ih h

theorem findCollision_none_excl {weapons : List Weapon} {s : String} {wid : String}
    (h : findCollision weapons s (some wid) = none) :
    ∀ w ∈ weapons, w.id ≠ wid → ciEq w.serialNumber s = false := by
  intro w hw hne
  have hp := List.find?_eq_none.mp h w hw
  simpa [hne] using hp

theorem serialsUnique_cons {ws : List Weapon} {w : Weapon}
    (hs : serialsUnique ws)
    (hnew : ∀ v ∈ ws, ciEq v.serialNumber w.serialNumber = false) :
    serialsUnique (w :: ws) :=
  List.pairwise_cons.mpr ⟨fun v hv => by rw [ciEq_symm]; exact hnew v hv, hs⟩

theorem serialsUnique_replace {ws : List Weapon} (u : Weapon) (wid : String)
    (hser : serialsUnique ws) (hids : weaponIdsUnique ws)
    (hnew : ∀ v ∈ ws, v.id ≠ wid → ciEq v.serialNumber u.serialNumber = false) :
    serialsUnique (ws.map fun w => if w.id == wid then u else w) := by
  unfold serialsUnique
  rw [List.pairwise_map]
  refine List.Pairwise.imp_of_mem ?_ (hser.and hids)
  intro a b ha hb hab
  obtain ⟨hciEq, hne⟩ := hab
  by_cases hau : (a.id == wid) = true <;> by_cases hbu : (b.id == wid) = true
  · exact absurd ((beq_iff_eq.mp hau).trans (beq_iff_eq.mp hbu).symm) hne
  · simp only [hau, hbu, if_true, if_false]
    rw [ciEq_symm]
    exact hnew b hb (by simpa using hbu)
  · simp only [hau, hbu, if_true, if_false]
    exact hnew a ha (by simpa using hau)
  · simp only [hau, hbu, if_false]
    exact hciEq

theorem serialsUnique_of_mem {ws : List Weapon}
    (hser : serialsUnique ws) (hids : weaponIdsUnique ws)
    {w0 : Weapon} (hw0 : w0 ∈ ws) :
    ∀ v ∈ ws, v.id ≠ w0.id → ciEq v.serialNumber w0.serialNumber = false := by
  intro v hv hne
  have hsymm : Symmetric (fun a b : Weapon =>
      ciEq a.serialNumber b.serialNumber = false ∧ a.id ≠ b.id) := by
    rintro a b ⟨h1, h2⟩
    exact ⟨by rw [ciEq_symm]; exact h1, Ne.symm h2⟩
  have hvne : v ≠ w0 := fun hh => hne (by rw [hh])
  exact (List.Pairwise.forall hsymm (hser.and hids) hv hw0 hvne).1

/-- C2: serial-number uniqueness is preserved by every weapon operation: in any
database state with primary-key-unique weapon ids and no two weapons with
case-insensitively equal serial numbers, the state after `registerWeapon`,
`updateWeapon` or `deleteWeapon` (completing normally or by throwing) again has no
two weapons with case-insensitively equal serial numbers. -/
theorem weapon_ops_preserve_serial_uniqueness (user : User) (check isCustom : Bool)
    (data : WeaponData) (weaponId : String) (gen : Nat → String) (fuel : Nat) (db : Db)
    (hser : serialsUnique db.weapons) (hids : weaponIdsUnique db.weapons) :
    (∀ db' r, registerWeapon user check isCustom data gen fuel db = some (db', r) →
      serialsUnique db'.weapons) ∧
    (∀ db' r, updateWeapon user check isCustom weaponId data gen fuel db = some (db', r) →
      serialsUnique db'.weapons) ∧
    (∀ db' r, deleteWeapon user check weaponId db = (db', r) →
      serialsUnique db'.weapons) := by
  refine ⟨?_, ?_, ?_⟩
  · intro db' r h
    unfold registerWeapon at h
    rcases hcit : db.citizens.find? (fun c => c.id == data.citizenId) with _ | c
    · rw [hcit] at h
      dsimp only at h
      simp only [Option.some.injEq, Prod.mk.injEq] at h
      obtain ⟨hdb, -⟩ := h
      rw [← hdb]; exact hser
    · rw [hcit] at h
      dsimp only at h
      cases hgate : citizenGatePasses check user (some c) <;> rw [hgate] at h <;>
        dsimp only at h
      · simp only [Option.some.injEq, Prod.mk.injEq] at h
        obtain ⟨hdb, -⟩ := h
        rw [← hdb]; exact hser
      · rcases hwv : (resolveModelIdRegister isCustom data.model db).2.weaponValues.find?
            (fun wv => wv.id == (resolveModelIdRegister isCustom data.model db).1)
            with _ | wv <;> rw [hwv] at h <;> dsimp only at h
        · simp only [Option.some.injEq, Prod.mk.injEq] at h
          obtain ⟨hdb, -⟩ := h
          rw [← hdb, resolveModelIdRegister_weapons]; exact hser
        · rcases hgen : generateOrValidateSerialNumber
              (resolveModelIdRegister isCustom data.model db).2.weapons gen fuel 0
              (truthy data.serialNumber) none with _ | res <;> rw [hgen] at h
          · simp at h
          · rcases res with e | serial <;> dsimp only at h <;>
              simp only [Option.some.injEq, Prod.mk.injEq] at h
            · obtain ⟨hdb, -⟩ := h
              rw [← hdb, resolveModelIdRegister_weapons]; exact hser
            · obtain ⟨hdb, -⟩ := h
              rw [← hdb]
              dsimp only
              have hnc := generateOrValidateSerialNumber_ok_noCollision hgen
              rw [resolveModelIdRegister_weapons] at hnc ⊢
              exact serialsUnique_cons hser (findCollision_none_forall hnc)
  · intro db' r h
    unfold updateWeapon at h
    rcases hfind : db.weapons.find? (fun w => w.id == weaponId) with _ | weapon
    · rw [hfind] at h
      dsimp only at h
      simp only [Option.some.injEq, Prod.mk.injEq] at h
      obtain ⟨hdb, -⟩ := h
      rw [← hdb]; exact hser
    · rw [hfind] at h
      dsimp only at h
      cases hgate : weaponGatePasses check user (some weapon) <;> rw [hgate] at h <;>
        dsimp only at h
      · simp only [Option.some.injEq, Prod.mk.injEq] at h
        obtain ⟨hdb, -⟩ := h
        rw [← hdb]; exact hser
      · rcases htr : truthy data.serialNumber with _ | s2 <;> rw [htr] at h <;>
          dsimp only at h
        · simp only [Option.some.injEq, Prod.mk.injEq] at h
          obtain ⟨hdb, -⟩ := h
          rw [← hdb]
          unfold replaceWeapon
          dsimp only
          rw [resolveModelIdUpdate_weapons]
          refine serialsUnique_replace _ weapon.id hser hids ?_
          intro v hv hne
          exact serialsUnique_of_mem hser hids (List.mem_of_find?_eq_some hfind) v hv hne
        · rcases hgen : generateOrValidateSerialNumber
              (resolveModelIdUpdate isCustom data.model db).2.weapons gen fuel 0
              (some s2) (some weapon.id) with _ | res <;> rw [hgen] at h
          · simp at h
          · rcases res with e | serial <;> dsimp only at h <;>
              simp only [Option.some.injEq, Prod.mk.injEq] at h
            · obtain ⟨hdb, -⟩ := h
              rw [← hdb, resolveModelIdUpdate_weapons]; exact hser
            · obtain ⟨hdb, -⟩ := h
              rw [← hdb]
              unfold replaceWeapon
              dsimp only
              rw [resolveModelIdUpdate_weapons]
              have hnc := generateOrValidateSerialNumber_ok_noCollision hgen
              rw [resolveModelIdUpdate_weapons] at hnc
              refine serialsUnique_replace _ weapon.id hser hids ?_
              intro v hv hne
              exact findCollision_none_excl hnc v hv hne
  · intro db' r h
    unfold deleteWeapon at h
    rcases hfind : db.weapons.find? (fun w => w.id == weaponId) with _ | weapon
    · rw [hfind] at h
      dsimp only at h
      simp only [Prod.mk.injEq] at h
      obtain ⟨hdb, -⟩ := h
      rw [← hdb]; exact hser
    · rw [hfind] at h
      dsimp only at h
      cases hgate : weaponGatePasses check user (some weapon) <;> rw [hgate] at h <;>
        dsimp only at h <;> simp only [Prod.mk.injEq] at h <;> obtain ⟨hdb, -⟩ := h <;>
        rw [← hdb]
      · exact hser
      · dsimp only
        exact hser.filter _

/-- C2 witness: deleting weapon `"w1"` from the two-weapon fixture preserves
uniqueness. -/
theorem weapon_ops_preserve_serial_uniqueness_witness :
    serialsUnique
      (⟨[⟨"c1", some "u1", "A", "B"⟩],
        [⟨"w2", "c1", some "u1", "XYZ789", "m1", "r1", 1⟩],
        [⟨"m1", "v1"⟩], [⟨"v1", "Glock", true, "WEAPON"⟩], [], 0, 5⟩ : Db).weapons :=
  (weapon_ops_preserve_serial_uniqueness ⟨"u1", "USER"⟩ false false
    ⟨"c1", "m1", "r1", none⟩ "w1" (fun _ => "Q") 1 exDb1
    (by decide) (by decide)).2.2 _ (.ok true) rfl

end SnailyCad

